import Mathlib

/-!
Shallow embedding of the tym-productivity server handlers that the
verified claims are about:

* `createTimeBlock`        — src/server/src/handlers/create_time_block.ts
* `updatePomodoroSession`  — src/unnamed/part_008 (handlers/update_pomodoro_session.ts)
* `getCalendarData`        — src/server/src/handlers/get_calendar_data.ts

The relational store is modelled as explicit lists of rows (`DB`), one list
per table, with per-table serial-id counters.  Timestamps are `Nat` minutes
since an arbitrary epoch; `startOfDay` models both JavaScript's
`date.setHours(0,0,0,0)` and SQL's `DATE(...)` truncation, with 1440 minutes
to a day.  JavaScript's ambient `new Date()` is passed in as an explicit
`now` parameter.  Fallible handlers return `Except`.
-/

namespace Tym

/-- A user row (only the id is relevant to the verified handlers). -/
structure User where
  id : Nat
deriving DecidableEq, Repr

/-- Task status enum from the drizzle schema. -/
inductive TaskStatus where
  | pending | in_progress | completed | cancelled
deriving DecidableEq, Repr

/-- A task row (fields the verified handlers read or write). -/
structure Task where
  id : Nat
  user_id : Nat
  title : String
  status : TaskStatus
  due_date : Option Nat
  estimated_duration : Option Nat
  actual_duration : Option Nat
  created_at : Nat
  updated_at : Nat
deriving DecidableEq, Repr

/-- An event row (fields the verified handlers read). -/
structure Event where
  id : Nat
  user_id : Nat
  title : String
  start_time : Nat
  end_time : Nat
deriving DecidableEq, Repr

/-- A time block row, per the `time_blocks` drizzle table. -/
structure TimeBlock where
  id : Nat
  user_id : Nat
  task_id : Option Nat
  event_id : Option Nat
  title : String
  start_time : Nat
  end_time : Nat
  color : Option String
  created_at : Nat
deriving DecidableEq, Repr

/-- Pomodoro session status enum from the drizzle schema. -/
inductive PomodoroStatus where
  | running | paused | completed | cancelled
deriving DecidableEq, Repr

/-- A Pomodoro session row, per the `pomodoro_sessions` drizzle table.
(That table has no `updated_at` column, so the handler's `updated_at`
assignment has no persisted counterpart and is not modelled.) -/
structure PomodoroSession where
  id : Nat
  user_id : Nat
  task_id : Option Nat
  duration : Nat
  break_duration : Nat
  status : PomodoroStatus
  started_at : Nat
  completed_at : Option Nat
  created_at : Nat
deriving DecidableEq, Repr

/-- A productivity-stats row, per the `productivity_stats` drizzle table. -/
structure ProductivityStats where
  id : Nat
  user_id : Nat
  date : Nat
  tasks_completed : Nat
  tasks_created : Nat
  total_focus_time : Nat
  pomodoro_sessions : Nat
  events_attended : Nat
  created_at : Nat
deriving DecidableEq, Repr

/-- The relational store: one list of rows per table, plus the serial-id
counters for the tables the verified handlers insert into. -/
structure DB where
  users : List User
  tasks : List Task
  events : List Event
  timeBlocks : List TimeBlock
  sessions : List PomodoroSession
  stats : List ProductivityStats
  nextTimeBlockId : Nat
  nextStatsId : Nat
deriving DecidableEq, Repr

/-- Minutes in a day; used to model day-granularity truncation. -/
def minutesPerDay : Nat := 1440

/-- Truncate a timestamp to midnight of its day: models JavaScript's
`d.setHours(0,0,0,0)` and SQL's `DATE(x)`. -/
def startOfDay (t : Nat) : Nat := t / minutesPerDay * minutesPerDay

/-- JavaScript truthiness of a nullable numeric id (`if (input.task_id)`):
false for null/undefined and for 0. -/
def optIdTruthy : Option Nat → Bool
  | none => false
  | some n => n != 0

/-- JavaScript truthiness of an optional nullable Date
(`!input.completed_at`): only an actual Date value is truthy.
`none` models the field being absent (undefined); `some none` models an
explicit null; `some (some t)` models a Date. -/
def optDateTruthy : Option (Option Nat) → Bool
  | some (some _) => true
  | _ => false

/-- Input to `createTimeBlock` (parsed `CreateTimeBlockInput`). -/
structure CreateTimeBlockInput where
  user_id : Nat
  task_id : Option Nat
  event_id : Option Nat
  title : String
  start_time : Nat
  end_time : Nat
  color : Option String
deriving DecidableEq, Repr

/-- The distinct `throw new Error(...)` exits of `createTimeBlock`. -/
inductive TimeBlockError where
  | userNotFound
  | taskNotFound
  | eventNotFound
  | invalidTimeRange
  | conflict
deriving DecidableEq, Repr

/-- Embedding of `createTimeBlock` (create_time_block.ts).  The checks run
in source order: user exists; referenced task (if the id is truthy) exists
and belongs to the user; referenced event likewise; `end_time > start_time`;
no existing block of the same user satisfies
`existing.start_time < input.end_time AND existing.end_time > input.start_time`.
On success the block is inserted with a fresh serial id. -/
def createTimeBlock (db : DB) (input : CreateTimeBlockInput) (now : Nat) :
    Except TimeBlockError (TimeBlock × DB) :=
  if (db.users.filter (fun u => u.id == input.user_id)).isEmpty then
    .error .userNotFound
  else if optIdTruthy input.task_id &&
      (db.tasks.filter (fun t =>
        some t.id == input.task_id && t.user_id == input.user_id)).isEmpty then
    .error .taskNotFound
  else if optIdTruthy input.event_id &&
      (db.events.filter (fun e =>
        some e.id == input.event_id && e.user_id == input.user_id)).isEmpty then
    .error .eventNotFound
  else if input.end_time ≤ input.start_time then
    .error .invalidTimeRange
  else if !(db.timeBlocks.filter (fun b =>
      b.user_id == input.user_id &&
      decide (b.start_time < input.end_time) &&
      decide (b.end_time > input.start_time))).isEmpty then
    .error .conflict
  else
    let tb : TimeBlock :=
      { id := db.nextTimeBlockId
        user_id := input.user_id
        task_id := input.task_id
        event_id := input.event_id
        title := input.title
        start_time := input.start_time
        end_time := input.end_time
        color := input.color
        created_at := now }
    .ok (tb, { db with
                timeBlocks := db.timeBlocks ++ [tb]
                nextTimeBlockId := db.nextTimeBlockId + 1 })

/-- Input to `updatePomodoroSession` (parsed `UpdatePomodoroSessionInput`).
`completed_at = none` models the field being absent from the request. -/
structure UpdatePomodoroSessionInput where
  id : Nat
  status : PomodoroStatus
  completed_at : Option (Option Nat)
deriving DecidableEq, Repr

/-- The `throw new Error(...)` exit of `updatePomodoroSession`. -/
inductive SessionError where
  | notFound
deriving DecidableEq, Repr

/-- The `completed_at` entry of the handler's `updateData` object:
`none` when the key is absent (row keeps its stored value).  Mirrors
`if (input.completed_at !== undefined) ...` followed by
`if (input.status === 'completed' && !input.completed_at) ... = new Date()`. -/
def completedAtField (input : UpdatePomodoroSessionInput) (now : Nat) :
    Option (Option Nat) :=
  if input.status == .completed && !(optDateTruthy input.completed_at) then
    some (some now)
  else
    input.completed_at

/-- Apply the handler's `updateData` to one session row. -/
def applyUpdateData (input : UpdatePomodoroSessionInput) (now : Nat)
    (t : PomodoroSession) : PomodoroSession :=
  { t with
      status := input.status
      completed_at :=
        match completedAtField input now with
        | some v => v
        | none => t.completed_at }

/-- First completion side effect of `updatePomodoroSession`: upsert today's
productivity-stats row of the session's owner.  The existing-row lookup
compares `DATE(stats.date)` with `DATE(today)` where `today` is midnight of
`now`; when a row matches, the first match is incremented, otherwise a fresh
row is inserted with zeroes for the counters the handler does not touch. -/
def upsertTodayStats (db : DB) (es : PomodoroSession) (now : Nat) : DB :=
  let today := startOfDay now
  match db.stats.filter (fun r =>
      r.user_id == es.user_id && startOfDay r.date == startOfDay today) with
  | r0 :: _ =>
    { db with stats := db.stats.map (fun r =>
        if r.id == r0.id then
          { r with
              total_focus_time := r.total_focus_time + es.duration
              pomodoro_sessions := r.pomodoro_sessions + 1 }
        else r) }
  | [] =>
    { db with
        stats := db.stats ++
          [{ id := db.nextStatsId
             user_id := es.user_id
             date := today
             tasks_completed := 0
             tasks_created := 0
             total_focus_time := es.duration
             pomodoro_sessions := 1
             events_attended := 0
             created_at := now }]
        nextStatsId := db.nextStatsId + 1 }

/-- Second completion side effect of `updatePomodoroSession`: when the
session has a truthy task link, add the session's duration to that task's
`actual_duration` (`COALESCE(actual_duration, 0) + duration`). -/
def addTaskDuration (db : DB) (es : PomodoroSession) (now : Nat) : DB :=
  if optIdTruthy es.task_id then
    { db with tasks := db.tasks.map (fun t =>
        if some t.id == es.task_id then
          { t with
              actual_duration := some (t.actual_duration.getD 0 + es.duration)
              updated_at := now }
        else t) }
  else db

/-- The completion side effects, in the handler's statement order. -/
def completeSideEffects (db : DB) (es : PomodoroSession) (now : Nat) : DB :=
  addTaskDuration (upsertTodayStats db es now) es now

/-- Embedding of `updatePomodoroSession` (src/unnamed/part_008): read the
session by id (not-found error when absent), apply `updateData` to the row,
and when the requested status is `completed` — regardless of the current
status — run the aggregation side effects using the pre-update row. -/
def updatePomodoroSession (db : DB) (input : UpdatePomodoroSessionInput)
    (now : Nat) : Except SessionError (PomodoroSession × DB) :=
  match db.sessions.filter (fun s => s.id == input.id) with
  | [] => .error .notFound
  | es :: _ =>
    let updated := applyUpdateData input now es
    let db2 := { db with sessions := db.sessions.map (fun t =>
        if t.id == input.id then applyUpdateData input now t else t) }
    if input.status == .completed then
      .ok (updated, completeSideEffects db2 es now)
    else
      .ok (updated, db2)

/-- Result record of `getCalendarData`. -/
structure CalendarData where
  tasks : List Task
  events : List Event
  timeBlocks : List TimeBlock
deriving DecidableEq, Repr

/-- Embedding of `getCalendarData` (get_calendar_data.ts): per-user rows
with the relevant timestamp inside `[start_date, end_date]` (drizzle
`gte`/`lte`).  A task whose `due_date` is NULL fails the SQL comparisons
and is excluded. -/
def getCalendarData (db : DB) (user_id start_date end_date : Nat) :
    CalendarData :=
  { tasks := db.tasks.filter (fun t =>
      t.user_id == user_id &&
      match t.due_date with
      | none => false
      | some d => decide (start_date ≤ d) && decide (d ≤ end_date))
    events := db.events.filter (fun e =>
      e.user_id == user_id &&
      decide (start_date ≤ e.start_time) &&
      decide (e.start_time ≤ end_date))
    timeBlocks := db.timeBlocks.filter (fun b =>
      b.user_id == user_id &&
      decide (start_date ≤ b.start_time) &&
      decide (b.start_time ≤ end_date)) }

/-- Forget the returned store, keeping the caller-visible outcome. -/
def timeBlockOutcome (r : Except TimeBlockError (TimeBlock × DB)) :
    Except TimeBlockError TimeBlock :=
  Except.map Prod.fst r

/-! ### Generic list lemmas -/

theorem find?_eq_head?_filter {α : Type} (p : α → Bool) (l : List α) :
    l.find? p = (l.filter p).head? := by
  induction l with
  | nil => rfl
  | cons a l ih =>
    cases h : p a with
    | true =>
      rw [List.find?_cons_of_pos _ h, List.filter_cons_of_pos h, List.head?_cons]
    | false =>
      have h' : ¬ p a = true := by simp [h]
      rw [List.find?_cons_of_neg _ h', List.filter_cons_of_neg h', ih]

theorem find?_map_of_pred_preserved {α : Type} (p : α → Bool) (g : α → α)
    (hp : ∀ a, p (g a) = p a) (l : List α) :
    (l.map g).find? p = (l.find? p).map g := by
  rw [List.find?_map]
  have hpg : p ∘ g = p := funext hp
  rw [hpg]

theorem filter_isEmpty_eq_false {α : Type} {p : α → Bool} {l : List α}
    (h : ∃ a ∈ l, p a = true) : (l.filter p).isEmpty = false := by
  obtain ⟨a, ha, hpa⟩ := h
  rw [List.isEmpty_eq_false]
  intro hnil
  rw [List.filter_eq_nil_iff] at hnil
  exact hnil a ha hpa

/-! ### Projection lemmas about the embedded handlers -/

theorem applyUpdateData_id (input : UpdatePomodoroSessionInput) (now : Nat)
    (t : PomodoroSession) : (applyUpdateData input now t).id = t.id := rfl

theorem applyUpdateData_user_id (input : UpdatePomodoroSessionInput)
    (now : Nat) (t : PomodoroSession) :
    (applyUpdateData input now t).user_id = t.user_id := rfl

theorem applyUpdateData_task_id (input : UpdatePomodoroSessionInput)
    (now : Nat) (t : PomodoroSession) :
    (applyUpdateData input now t).task_id = t.task_id := rfl

theorem applyUpdateData_duration (input : UpdatePomodoroSessionInput)
    (now : Nat) (t : PomodoroSession) :
    (applyUpdateData input now t).duration = t.duration := rfl

theorem applyUpdateData_status (input : UpdatePomodoroSessionInput)
    (now : Nat) (t : PomodoroSession) :
    (applyUpdateData input now t).status = input.status := rfl

theorem upsertTodayStats_tasks (db : DB) (es : PomodoroSession) (now : Nat) :
    (upsertTodayStats db es now).tasks = db.tasks := by
  unfold upsertTodayStats
  dsimp only
  split <;> rfl

theorem upsertTodayStats_sessions (db : DB) (es : PomodoroSession)
    (now : Nat) : (upsertTodayStats db es now).sessions = db.sessions := by
  unfold upsertTodayStats
  dsimp only
  split <;> rfl

theorem addTaskDuration_stats (db : DB) (es : PomodoroSession) (now : Nat) :
    (addTaskDuration db es now).stats = db.stats := by
  unfold addTaskDuration
  split <;> rfl

theorem addTaskDuration_sessions (db : DB) (es : PomodoroSession)
    (now : Nat) : (addTaskDuration db es now).sessions = db.sessions := by
  unfold addTaskDuration
  split <;> rfl

/-- Destructor for a successful `updatePomodoroSession` call: the session was
found (first filter match `es`), the returned row is `es` with `updateData`
applied, and the resulting store is the session-table update followed — when
the requested status is `completed` — by the aggregation side effects. -/
theorem updatePomodoroSession_ok_destruct (db : DB)
    (input : UpdatePomodoroSessionInput) (now : Nat) (s : PomodoroSession)
    (db2 : DB) (hok : updatePomodoroSession db input now = .ok (s, db2)) :
    ∃ es rest,
      db.sessions.filter (fun t => t.id == input.id) = es :: rest ∧
      s = applyUpdateData input now es ∧
      db2 = (if input.status == .completed then
              completeSideEffects
                { db with sessions := db.sessions.map (fun t =>
                    if t.id == input.id then applyUpdateData input now t
                    else t) } es now
             else
              { db with sessions := db.sessions.map (fun t =>
                  if t.id == input.id then applyUpdateData input now t
                  else t) }) := by
  unfold updatePomodoroSession at hok
  split at hok
  · exact Except.noConfusion hok
  · rename_i es rest hf
    dsimp only at hok
    by_cases hc : input.status == PomodoroStatus.completed
    · rw [if_pos hc] at hok
      rw [Except.ok.injEq, Prod.mk.injEq] at hok
      exact ⟨es, rest, hf, hok.1.symm, by rw [if_pos hc]; exact hok.2.symm⟩
    · rw [if_neg hc] at hok
      rw [Except.ok.injEq, Prod.mk.injEq] at hok
      exact ⟨es, rest, hf, hok.1.symm, by rw [if_neg hc]; exact hok.2.symm⟩


theorem completeSideEffects_sessions (db : DB) (es : PomodoroSession)
    (now : Nat) : (completeSideEffects db es now).sessions = db.sessions := by
  unfold completeSideEffects
  rw [addTaskDuration_sessions, upsertTodayStats_sessions]

/-! ### Claim theorems -/

/-- C9: calling `updatePomodoroSession` with a session id that matches no
existing Pomodoro session fails with the not-found error (the handler
returns before performing any write). -/
theorem updatePomodoroSession_missing_session_fails (db : DB)
    (input : UpdatePomodoroSessionInput) (now : Nat)
    (h : ∀ s ∈ db.sessions, s.id ≠ input.id) :
    updatePomodoroSession db input now = .error .notFound := by
  unfold updatePomodoroSession
  have hf : db.sessions.filter (fun t => t.id == input.id) = [] := by
    rw [List.filter_eq_nil_iff]
    intro s hs
    simp [h s hs]
  rw [hf]

/-- Fixture for the C9 witness: a store whose only session has id 1. -/
def dbW9 : DB :=
  { users := [{ id := 1 }], tasks := [], events := [], timeBlocks := []
    sessions := [{ id := 1, user_id := 1, task_id := none, duration := 25,
                   break_duration := 5, status := .running, started_at := 0,
                   completed_at := none, created_at := 0 }]
    stats := [], nextTimeBlockId := 1, nextStatsId := 1 }

theorem updatePomodoroSession_missing_session_fails_witness :
    updatePomodoroSession dbW9
      { id := 999, status := .completed, completed_at := none } 100 =
      .error .notFound :=
  updatePomodoroSession_missing_session_fails dbW9
    { id := 999, status := .completed, completed_at := none } 100 (by decide)

/-- C6: when `end_time ≤ start_time` (zero-duration included) and the
reference checks pass, `createTimeBlock` fails with the invalid-time-range
validation error regardless of any overlap with existing blocks. -/
theorem createTimeBlock_rejects_nonpositive_range (db : DB)
    (input : CreateTimeBlockInput) (now : Nat)
    (huser : ∃ u ∈ db.users, u.id = input.user_id)
    (htask : optIdTruthy input.task_id = true →
      ∃ t ∈ db.tasks, some t.id = input.task_id ∧ t.user_id = input.user_id)
    (hevent : optIdTruthy input.event_id = true →
      ∃ e ∈ db.events, some e.id = input.event_id ∧ e.user_id = input.user_id)
    (hrange : input.end_time ≤ input.start_time) :
    createTimeBlock db input now = .error .invalidTimeRange := by
  unfold createTimeBlock
  have h1 : ¬ ((db.users.filter (fun u => u.id == input.user_id)).isEmpty
      = true) := by
    obtain ⟨u, hu, hid⟩ := huser
    have hne : (db.users.filter (fun u => u.id == input.user_id)).isEmpty
        = false :=
      filter_isEmpty_eq_false ⟨u, hu, by simp [hid]⟩
    simp [hne]
  have h2 : ¬ ((optIdTruthy input.task_id &&
      (db.tasks.filter (fun t =>
        some t.id == input.task_id && t.user_id == input.user_id)).isEmpty)
      = true) := by
    rw [Bool.and_eq_true]
    rintro ⟨htr, hempty⟩
    obtain ⟨t, ht, hid, huid⟩ := htask htr
    have hne : (db.tasks.filter (fun t =>
        some t.id == input.task_id && t.user_id == input.user_id)).isEmpty
        = false :=
      filter_isEmpty_eq_false ⟨t, ht, by simp [hid, huid]⟩
    simp [hne] at hempty
  have h3 : ¬ ((optIdTruthy input.event_id &&
      (db.events.filter (fun e =>
        some e.id == input.event_id && e.user_id == input.user_id)).isEmpty)
      = true) := by
    rw [Bool.and_eq_true]
    rintro ⟨htr, hempty⟩
    obtain ⟨e, he, hid, huid⟩ := hevent htr
    have hne : (db.events.filter (fun e =>
        some e.id == input.event_id && e.user_id == input.user_id)).isEmpty
        = false :=
      filter_isEmpty_eq_false ⟨e, he, by simp [hid, huid]⟩
    simp [hne] at hempty
  rw [if_neg h1, if_neg h2, if_neg h3, if_pos hrange]

/-- Fixture for the C6 witness: the user owns a block covering the whole
day, so the zero-duration request overlaps it, yet the rejection is the
time-range validation error. -/
def dbW6 : DB :=
  { users := [{ id := 1 }], tasks := [], events := []
    timeBlocks := [{ id := 1, user_id := 1, task_id := none,
                     event_id := none, title := "all day", start_time := 0,
                     end_time := 10000, color := none, created_at := 0 }]
    sessions := [], stats := [], nextTimeBlockId := 2, nextStatsId := 1 }

/-- C6 witness input: a zero-duration block (start = end = 600). -/
def inW6 : CreateTimeBlockInput :=
  { user_id := 1, task_id := none, event_id := none, title := "zero",
    start_time := 600, end_time := 600, color := none }

theorem createTimeBlock_rejects_nonpositive_range_witness :
    createTimeBlock dbW6 inW6 700 = .error .invalidTimeRange :=
  createTimeBlock_rejects_nonpositive_range dbW6 inW6 700
    (by decide) (by decide) (by decide) (by decide)

/-- C8: `getCalendarData` returns exactly the caller's tasks whose due date
lies in `[start_date, end_date]` (tasks with a NULL due date excluded), the
events whose start time lies in the range, and the time blocks whose start
time lies in the range. -/
theorem getCalendarData_exact (db : DB) (uid s e : Nat) :
    (∀ t : Task, t ∈ (getCalendarData db uid s e).tasks ↔
      (t ∈ db.tasks ∧ t.user_id = uid ∧
        ∃ d, t.due_date = some d ∧ s ≤ d ∧ d ≤ e)) ∧
    (∀ ev : Event, ev ∈ (getCalendarData db uid s e).events ↔
      (ev ∈ db.events ∧ ev.user_id = uid ∧
        s ≤ ev.start_time ∧ ev.start_time ≤ e)) ∧
    (∀ b : TimeBlock, b ∈ (getCalendarData db uid s e).timeBlocks ↔
      (b ∈ db.timeBlocks ∧ b.user_id = uid ∧
        s ≤ b.start_time ∧ b.start_time ≤ e)) := by
  refine ⟨fun t => ?_, fun ev => ?_, fun b => ?_⟩
  · simp only [getCalendarData, List.mem_filter, Bool.and_eq_true,
      beq_iff_eq, decide_eq_true_eq]
    cases hd : t.due_date with
    | none => simp [hd]
    | some d => simp [hd, and_assoc]
  · simp [getCalendarData, List.mem_filter, Bool.and_eq_true, beq_iff_eq,
      decide_eq_true_eq, and_assoc]
  · simp [getCalendarData, List.mem_filter, Bool.and_eq_true, beq_iff_eq,
      decide_eq_true_eq, and_assoc]

/-- C10: whenever the caller supplies an actual `completed_at` value, the
update persists that value on the session — for every requested status, not
just transitions into completed. -/
theorem updateSession_persists_caller_completed_at (db : DB)
    (input : UpdatePomodoroSessionInput) (now : Nat) (s : PomodoroSession)
    (db2 : DB) (tv : Nat)
    (hok : updatePomodoroSession db input now = .ok (s, db2))
    (hval : input.completed_at = some (some tv)) :
    s.completed_at = some tv ∧
      ∀ u ∈ db2.sessions, u.id = input.id → u.completed_at = some tv := by
  obtain ⟨es, rest, hf, hs, hdb⟩ :=
    updatePomodoroSession_ok_destruct db input now s db2 hok
  have hfield : completedAtField input now = some (some tv) := by
    unfold completedAtField
    rw [hval]
    simp [optDateTruthy]
  have happly : ∀ t : PomodoroSession,
      (applyUpdateData input now t).completed_at = some tv := by
    intro t
    unfold applyUpdateData
    simp [hfield]
  refine ⟨by rw [hs]; exact happly es, ?_⟩
  intro u hu hid
  have hsess : db2.sessions = db.sessions.map (fun t =>
      if t.id == input.id then applyUpdateData input now t else t) := by
    rw [hdb]
    by_cases hc : input.status == PomodoroStatus.completed
    · rw [if_pos hc, completeSideEffects_sessions]
    · rw [if_neg hc]
  rw [hsess] at hu
  obtain ⟨t0, ht0, heq⟩ := List.mem_map.mp hu
  by_cases hid0 : (t0.id == input.id) = true
  · rw [if_pos hid0] at heq
    rw [← heq]
    exact happly t0
  · rw [if_neg hid0] at heq
    exact absurd (by simp [heq, hid]) hid0

/-- Fixture for the C10 witness: one running session with id 1. -/
def sessionW10 : PomodoroSession :=
  { id := 1, user_id := 3, task_id := none, duration := 25,
    break_duration := 5, status := .running, started_at := 10,
    completed_at := none, created_at := 10 }

/-- C10 witness input: pause the session while supplying completed_at. -/
def inW10 : UpdatePomodoroSessionInput :=
  { id := 1, status := .paused, completed_at := some (some 42) }

/-- The store for the C10 witness. -/
def dbW10 : DB :=
  { users := [{ id := 3 }], tasks := [], events := [], timeBlocks := []
    sessions := [sessionW10], stats := [], nextTimeBlockId := 1,
    nextStatsId := 1 }

/-- The session row after the C10 witness update. -/
def sessionW10u : PomodoroSession :=
  { sessionW10 with status := .paused, completed_at := some 42 }

/-- The store after the C10 witness update. -/
def dbW10u : DB := { dbW10 with sessions := [sessionW10u] }

theorem updateSession_persists_caller_completed_at_witness :
    sessionW10u.completed_at = some 42 ∧
      ∀ u ∈ dbW10u.sessions, u.id = inW10.id → u.completed_at = some 42 :=
  updateSession_persists_caller_completed_at dbW10 inW10 500 sessionW10u
    dbW10u 42 rfl rfl


/-- The session table after any successful update: the matching rows with
`updateData` applied, every other row untouched. -/
theorem updatePomodoroSession_db2_sessions (db : DB)
    (input : UpdatePomodoroSessionInput) (now : Nat) (s : PomodoroSession)
    (db2 : DB) (hok : updatePomodoroSession db input now = .ok (s, db2)) :
    db2.sessions = db.sessions.map (fun t =>
      if t.id == input.id then applyUpdateData input now t else t) := by
  obtain ⟨es, rest, hf, hs, hdb⟩ :=
    updatePomodoroSession_ok_destruct db input now s db2 hok
  rw [hdb]
  by_cases hc : (input.status == PomodoroStatus.completed) = true
  · rw [if_pos hc, completeSideEffects_sessions]
  · rw [if_neg hc]

/-- C2 (amended): only a requested status of `completed` triggers the
aggregation side effects — an update to running, paused, or cancelled
leaves the productivity-stats and task tables unchanged.  (The original
claim's further clause, that completing an already-completed session also
leaves them unchanged, is refuted by the counterexample: the handler keys
the side effects on the requested status alone.) -/
theorem updateSession_non_completed_preserves_stats_and_tasks (db : DB)
    (input : UpdatePomodoroSessionInput) (now : Nat) (s : PomodoroSession)
    (db2 : DB) (hok : updatePomodoroSession db input now = .ok (s, db2))
    (h : input.status ≠ .completed) :
    db2.stats = db.stats ∧ db2.tasks = db.tasks := by
  obtain ⟨es, rest, hf, hs, hdb⟩ :=
    updatePomodoroSession_ok_destruct db input now s db2 hok
  have hc : ¬ (input.status == PomodoroStatus.completed) = true := by
    simp [h]
  rw [if_neg hc] at hdb
  rw [hdb]
  exact ⟨rfl, rfl⟩

/-- Fixture for C2: a running session linked to a task, with an existing
stats row for the owner. -/
def sessionW2 : PomodoroSession :=
  { id := 1, user_id := 4, task_id := some 9, duration := 25,
    break_duration := 5, status := .running, started_at := 0,
    completed_at := none, created_at := 0 }

/-- Fixture for C2: the linked task. -/
def taskW2 : Task :=
  { id := 9, user_id := 4, title := "write report", status := .pending,
    due_date := none, estimated_duration := some 60,
    actual_duration := some 30, created_at := 0, updated_at := 0 }

/-- Fixture for C2: the store before the pause update. -/
def dbW2 : DB :=
  { users := [{ id := 4 }], tasks := [taskW2], events := [], timeBlocks := []
    sessions := [sessionW2]
    stats := [{ id := 1, user_id := 4, date := 0, tasks_completed := 1,
                tasks_created := 2, total_focus_time := 50,
                pomodoro_sessions := 2, events_attended := 0,
                created_at := 0 }]
    nextTimeBlockId := 1, nextStatsId := 2 }

/-- C2 witness input: pause the running session. -/
def inW2 : UpdatePomodoroSessionInput :=
  { id := 1, status := .paused, completed_at := none }

/-- The session row after the C2 witness update. -/
def sessionW2u : PomodoroSession := { sessionW2 with status := .paused }

/-- The store after the C2 witness update. -/
def dbW2u : DB := { dbW2 with sessions := [sessionW2u] }

theorem updateSession_non_completed_preserves_stats_and_tasks_witness :
    dbW2u.stats = dbW2.stats ∧ dbW2u.tasks = dbW2.tasks :=
  updateSession_non_completed_preserves_stats_and_tasks dbW2 inW2 100
    sessionW2u dbW2u rfl (by decide)

/-- Fixture for the C2 counterexample: a session that is already
completed, its owner having no stats row at all. -/
def sessionX2 : PomodoroSession :=
  { id := 1, user_id := 7, task_id := none, duration := 25,
    break_duration := 5, status := .completed, started_at := 0,
    completed_at := some 30, created_at := 0 }

/-- The store for the C2 counterexample. -/
def dbX2 : DB :=
  { users := [{ id := 7 }], tasks := [], events := [], timeBlocks := []
    sessions := [sessionX2], stats := [], nextTimeBlockId := 1,
    nextStatsId := 1 }

/-- C2 counterexample: updating an already-completed session with status
`completed` does NOT leave the stats table unchanged — the handler keys the
side effects on the requested status only, so the aggregation runs again
and here creates a stats row (0 rows before, 1 row after). -/
theorem recompleting_completed_session_mutates_stats :
    sessionX2.status = .completed ∧ dbX2.stats.length = 0 ∧
    Except.map (fun p => (Prod.snd p).stats.length)
      (updatePomodoroSession dbX2
        { id := 1, status := .completed, completed_at := none } 2000) =
      .ok 1 :=
  ⟨rfl, rfl, rfl⟩

/-- C3 (amended): `updatePomodoroSession` imposes no state-machine
restriction: the stored status becomes whatever the caller requests,
whatever the current status — completed and cancelled are not terminal in
the code. -/
theorem updateSession_applies_requested_status (db : DB)
    (input : UpdatePomodoroSessionInput) (now : Nat) (s : PomodoroSession)
    (db2 : DB) (hok : updatePomodoroSession db input now = .ok (s, db2)) :
    s.status = input.status ∧
      ∀ u ∈ db2.sessions, u.id = input.id → u.status = input.status := by
  obtain ⟨es, rest, hf, hs, hdb⟩ :=
    updatePomodoroSession_ok_destruct db input now s db2 hok
  refine ⟨by rw [hs]; rfl, ?_⟩
  intro u hu hid
  rw [updatePomodoroSession_db2_sessions db input now s db2 hok] at hu
  obtain ⟨t0, ht0, heq⟩ := List.mem_map.mp hu
  by_cases hid0 : (t0.id == input.id) = true
  · rw [if_pos hid0] at heq
    rw [← heq]
    rfl
  · rw [if_neg hid0] at heq
    exact absurd (by simp [heq, hid]) hid0

/-- Fixture for C3: a completed session with id 2. -/
def sessionX3 : PomodoroSession :=
  { id := 2, user_id := 5, task_id := none, duration := 25,
    break_duration := 5, status := .completed, started_at := 0,
    completed_at := some 25, created_at := 0 }

/-- The store for C3. -/
def dbX3 : DB :=
  { users := [{ id := 5 }], tasks := [], events := [], timeBlocks := []
    sessions := [sessionX3], stats := [], nextTimeBlockId := 1,
    nextStatsId := 1 }

/-- C3 input: move the completed session back to running. -/
def inX3 : UpdatePomodoroSessionInput :=
  { id := 2, status := .running, completed_at := none }

/-- C3 counterexample: a completed (terminal, per the claim) session is
moved back to running by the handler. -/
theorem completed_session_set_back_to_running :
    sessionX3.status = .completed ∧
    Except.map (fun p => (Prod.fst p).status)
      (updatePomodoroSession dbX3 inX3 500) = .ok .running :=
  ⟨rfl, rfl⟩

/-- The session row after the C3 update. -/
def sessionX3u : PomodoroSession := { sessionX3 with status := .running }

/-- The store after the C3 update. -/
def dbX3u : DB := { dbX3 with sessions := [sessionX3u] }

theorem updateSession_applies_requested_status_witness :
    sessionX3u.status = inX3.status ∧
      ∀ u ∈ dbX3u.sessions, u.id = inX3.id → u.status = inX3.status :=
  updateSession_applies_requested_status dbX3 inX3 500 sessionX3u dbX3u rfl


/-- Day truncation is idempotent. -/
theorem startOfDay_idem (t : Nat) : startOfDay (startOfDay t) = startOfDay t := by
  unfold startOfDay minutesPerDay
  rw [Nat.mul_div_cancel _ (by norm_num)]

/-- The row predicate of the stats upsert: same owner, same calendar day. -/
def statsDayPred (uid day : Nat) (r : ProductivityStats) : Bool :=
  r.user_id == uid && (startOfDay r.date == day)

/-- What the stats upsert does to the lookup for (owner, day of `now`):
an existing first match is returned incremented; otherwise the freshly
inserted row — duration, one session, zeroes elsewhere — is found. -/
theorem upsertTodayStats_stats_spec (db : DB) (es : PomodoroSession)
    (now : Nat) :
    (∀ r, db.stats.find? (statsDayPred es.user_id (startOfDay now)) = some r →
      (upsertTodayStats db es now).stats.find?
          (statsDayPred es.user_id (startOfDay now)) =
        some { r with
                 total_focus_time := r.total_focus_time + es.duration
                 pomodoro_sessions := r.pomodoro_sessions + 1 }) ∧
    (db.stats.find? (statsDayPred es.user_id (startOfDay now)) = none →
      (upsertTodayStats db es now).stats.find?
          (statsDayPred es.user_id (startOfDay now)) =
        some { id := db.nextStatsId, user_id := es.user_id,
               date := startOfDay now, tasks_completed := 0,
               tasks_created := 0, total_focus_time := es.duration,
               pomodoro_sessions := 1, events_attended := 0,
               created_at := now }) := by
  have hpd : (fun r : ProductivityStats =>
      r.user_id == es.user_id &&
        (startOfDay r.date == startOfDay (startOfDay now))) =
      statsDayPred es.user_id (startOfDay now) := by
    funext r
    simp only [statsDayPred]
    rw [startOfDay_idem]
  unfold upsertTodayStats
  dsimp only
  rw [hpd]
  split
  · rename_i r0 tail heq
    constructor
    · intro r hr
      rw [find?_eq_head?_filter, heq, List.head?_cons] at hr
      have hr0 : r0 = r := by injection hr
      subst hr0
      dsimp only
      rw [find?_map_of_pred_preserved _ _ ?hpres, find?_eq_head?_filter, heq,
        List.head?_cons]
      case hpres =>
        intro a
        by_cases h : (a.id == r0.id) = true
        · rw [if_pos h]
          rfl
        · rw [if_neg h]
      simp only [Option.map_some']
      rw [if_pos (by simp)]
    · intro hnone
      rw [find?_eq_head?_filter, heq, List.head?_cons] at hnone
      exact Option.noConfusion hnone
  · rename_i heq
    constructor
    · intro r hr
      rw [find?_eq_head?_filter, heq] at hr
      exact Option.noConfusion hr
    · intro _
      dsimp only
      rw [List.find?_append]
      have hnone : db.stats.find?
          (statsDayPred es.user_id (startOfDay now)) = none := by
        rw [find?_eq_head?_filter, heq]
        rfl
      rw [hnone, Option.none_or]
      rw [List.find?_cons_of_pos]
      simp [statsDayPred, startOfDay_idem]

/-- The stats table after the completion side effects is the stats table
after the upsert (the task update leaves stats alone). -/
theorem completeSideEffects_stats (db : DB) (es : PomodoroSession)
    (now : Nat) :
    (completeSideEffects db es now).stats = (upsertTodayStats db es now).stats
    := by
  unfold completeSideEffects
  rw [addTaskDuration_stats]

/-- C4: completing a session of duration D upserts today's stats row of the
session's owner: an existing (owner, today) row gains D focus minutes and
one session; with no existing row, a fresh row with total_focus_time = D,
pomodoro_sessions = 1 and zeroes for the other counters is created (and is
what the (owner, today) lookup now finds). -/
theorem updateSession_completed_upserts_today_stats (db : DB)
    (input : UpdatePomodoroSessionInput) (now : Nat) (s : PomodoroSession)
    (db2 : DB) (hok : updatePomodoroSession db input now = .ok (s, db2))
    (hcomp : input.status = .completed) :
    (∀ r, db.stats.find? (statsDayPred s.user_id (startOfDay now)) = some r →
      db2.stats.find? (statsDayPred s.user_id (startOfDay now)) =
        some { r with
                 total_focus_time := r.total_focus_time + s.duration
                 pomodoro_sessions := r.pomodoro_sessions + 1 }) ∧
    (db.stats.find? (statsDayPred s.user_id (startOfDay now)) = none →
      db2.stats.find? (statsDayPred s.user_id (startOfDay now)) =
        some { id := db.nextStatsId, user_id := s.user_id,
               date := startOfDay now, tasks_completed := 0,
               tasks_created := 0, total_focus_time := s.duration,
               pomodoro_sessions := 1, events_attended := 0,
               created_at := now }) := by
  obtain ⟨es, rest, hf, hs, hdb⟩ :=
    updatePomodoroSession_ok_destruct db input now s db2 hok
  have hc : (input.status == PomodoroStatus.completed) = true := by
    rw [hcomp]
    rfl
  rw [if_pos hc] at hdb
  have hsu : s.user_id = es.user_id := by rw [hs]; rfl
  have hsd : s.duration = es.duration := by rw [hs]; rfl
  rw [hsu, hsd]
  have hstats : db2.stats = (upsertTodayStats
      { db with sessions := db.sessions.map (fun t =>
          if t.id == input.id then applyUpdateData input now t else t) }
      es now).stats := by
    rw [hdb, completeSideEffects_stats]
  rw [hstats]
  exact upsertTodayStats_stats_spec
    { db with sessions := db.sessions.map (fun t =>
        if t.id == input.id then applyUpdateData input now t else t) }
    es now

/-- Fixture for C4: a running session, owner with no stats row. -/
def sessionW4 : PomodoroSession :=
  { id := 1, user_id := 6, task_id := none, duration := 25,
    break_duration := 5, status := .running, started_at := 1900,
    completed_at := none, created_at := 1900 }

/-- The store for the C4 witness. -/
def dbW4 : DB :=
  { users := [{ id := 6 }], tasks := [], events := [], timeBlocks := []
    sessions := [sessionW4], stats := [], nextTimeBlockId := 1,
    nextStatsId := 1 }

/-- C4 witness input: complete the session. -/
def inW4 : UpdatePomodoroSessionInput :=
  { id := 1, status := .completed, completed_at := none }

/-- The session row after the C4 completion at time 2000. -/
def sessionW4u : PomodoroSession :=
  { sessionW4 with status := .completed, completed_at := some 2000 }

/-- The stats row created by the C4 completion (day 1440 = startOfDay 2000). -/
def statsW4 : ProductivityStats :=
  { id := 1, user_id := 6, date := 1440, tasks_completed := 0,
    tasks_created := 0, total_focus_time := 25, pomodoro_sessions := 1,
    events_attended := 0, created_at := 2000 }

/-- The store after the C4 completion. -/
def dbW4u : DB :=
  { dbW4 with sessions := [sessionW4u], stats := [statsW4], nextStatsId := 2 }

theorem updateSession_completed_upserts_today_stats_witness :
    (∀ r, dbW4.stats.find?
        (statsDayPred sessionW4u.user_id (startOfDay 2000)) = some r →
      dbW4u.stats.find? (statsDayPred sessionW4u.user_id (startOfDay 2000)) =
        some { r with
                 total_focus_time := r.total_focus_time + sessionW4u.duration
                 pomodoro_sessions := r.pomodoro_sessions + 1 }) ∧
    (dbW4.stats.find? (statsDayPred sessionW4u.user_id (startOfDay 2000)) =
        none →
      dbW4u.stats.find? (statsDayPred sessionW4u.user_id (startOfDay 2000)) =
        some { id := dbW4.nextStatsId, user_id := sessionW4u.user_id,
               date := startOfDay 2000, tasks_completed := 0,
               tasks_created := 0, total_focus_time := sessionW4u.duration,
               pomodoro_sessions := 1, events_attended := 0,
               created_at := 2000 }) :=
  updateSession_completed_upserts_today_stats dbW4 inW4 2000 sessionW4u dbW4u
    rfl rfl

/-- C5: a completed session with a (truthy) task link adds its duration to
that task's actual_duration, null coalescing to 0; a completed session
without a task link leaves the task table untouched. -/
theorem updateSession_completed_adds_task_duration (db : DB)
    (input : UpdatePomodoroSessionInput) (now : Nat) (s : PomodoroSession)
    (db2 : DB) (hok : updatePomodoroSession db input now = .ok (s, db2))
    (hcomp : input.status = .completed) :
    (∀ tid, s.task_id = some tid → tid ≠ 0 →
      db2.tasks = db.tasks.map (fun t =>
        if t.id == tid then
          { t with
              actual_duration := some (t.actual_duration.getD 0 + s.duration)
              updated_at := now }
        else t)) ∧
    (s.task_id = none → db2.tasks = db.tasks) := by
  obtain ⟨es, rest, hf, hs, hdb⟩ :=
    updatePomodoroSession_ok_destruct db input now s db2 hok
  have hc : (input.status == PomodoroStatus.completed) = true := by
    rw [hcomp]
    rfl
  rw [if_pos hc] at hdb
  have hst : s.task_id = es.task_id := by rw [hs]; rfl
  have hsd : s.duration = es.duration := by rw [hs]; rfl
  have htasks : db2.tasks = (addTaskDuration (upsertTodayStats
      { db with sessions := db.sessions.map (fun t =>
          if t.id == input.id then applyUpdateData input now t else t) }
      es now) es now).tasks := by
    rw [hdb]
    rfl
  constructor
  · intro tid htid htid0
    have hestid : es.task_id = some tid := by rw [← hst, htid]
    have htr : optIdTruthy es.task_id = true := by
      rw [hestid]
      simp [optIdTruthy, htid0]
    rw [htasks]
    unfold addTaskDuration
    rw [if_pos htr, hestid, hsd]
    rw [upsertTodayStats_tasks]
    rfl
  · intro htid
    have hestid : es.task_id = none := by rw [← hst, htid]
    have htr : optIdTruthy es.task_id = false := by
      rw [hestid]
      rfl
    rw [htasks]
    unfold addTaskDuration
    rw [if_neg (by simp [htr]), upsertTodayStats_tasks]

/-- Fixture for C5: a task with 30 accumulated minutes. -/
def taskW5 : Task :=
  { id := 9, user_id := 8, title := "deep work", status := .in_progress,
    due_date := none, estimated_duration := none,
    actual_duration := some 30, created_at := 0, updated_at := 0 }

/-- Fixture for C5: a running session of 25 minutes linked to the task. -/
def sessionW5 : PomodoroSession :=
  { id := 3, user_id := 8, task_id := some 9, duration := 25,
    break_duration := 5, status := .running, started_at := 0,
    completed_at := none, created_at := 0 }

/-- The store for the C5 witness. -/
def dbW5 : DB :=
  { users := [{ id := 8 }], tasks := [taskW5], events := [], timeBlocks := []
    sessions := [sessionW5], stats := [], nextTimeBlockId := 1,
    nextStatsId := 1 }

/-- C5 witness input: complete the session at time 60. -/
def inW5 : UpdatePomodoroSessionInput :=
  { id := 3, status := .completed, completed_at := some (some 60) }

/-- The session row after the C5 completion. -/
def sessionW5u : PomodoroSession :=
  { sessionW5 with status := .completed, completed_at := some 60 }

/-- The task after the C5 completion: 30 + 25 = 55 accumulated minutes. -/
def taskW5u : Task :=
  { taskW5 with actual_duration := some 55, updated_at := 60 }

/-- The stats row created by the C5 completion. -/
def statsW5 : ProductivityStats :=
  { id := 1, user_id := 8, date := 0, tasks_completed := 0,
    tasks_created := 0, total_focus_time := 25, pomodoro_sessions := 1,
    events_attended := 0, created_at := 60 }

/-- The store after the C5 completion. -/
def dbW5u : DB :=
  { dbW5 with
      tasks := [taskW5u]
      sessions := [sessionW5u]
      stats := [statsW5]
      nextStatsId := 2 }

theorem updateSession_completed_adds_task_duration_witness :
    (∀ tid, sessionW5u.task_id = some tid → tid ≠ 0 →
      dbW5u.tasks = dbW5.tasks.map (fun t =>
        if t.id == tid then
          { t with
              actual_duration :=
                some (t.actual_duration.getD 0 + sessionW5u.duration)
              updated_at := 60 }
        else t)) ∧
    (sessionW5u.task_id = none → dbW5u.tasks = dbW5.tasks) :=
  updateSession_completed_adds_task_duration dbW5 inW5 60 sessionW5u dbW5u
    rfl rfl


/-- When the owner/task/event reference checks pass and the time range is
positive, `createTimeBlock` reduces to the overlap test: the conflict error
when some same-user block overlaps, otherwise the insertion. -/
theorem createTimeBlock_checks_pass (db : DB) (input : CreateTimeBlockInput)
    (now : Nat)
    (huser : ∃ u ∈ db.users, u.id = input.user_id)
    (htask : optIdTruthy input.task_id = true →
      ∃ t ∈ db.tasks, some t.id = input.task_id ∧ t.user_id = input.user_id)
    (hevent : optIdTruthy input.event_id = true →
      ∃ e ∈ db.events, some e.id = input.event_id ∧ e.user_id = input.user_id)
    (hrange : input.start_time < input.end_time) :
    createTimeBlock db input now =
      (if !(db.timeBlocks.filter (fun b =>
          b.user_id == input.user_id &&
          decide (b.start_time < input.end_time) &&
          decide (b.end_time > input.start_time))).isEmpty then
        .error .conflict
      else
        let tb : TimeBlock :=
          { id := db.nextTimeBlockId
            user_id := input.user_id
            task_id := input.task_id
            event_id := input.event_id
            title := input.title
            start_time := input.start_time
            end_time := input.end_time
            color := input.color
            created_at := now }
        .ok (tb, { db with
                    timeBlocks := db.timeBlocks ++ [tb]
                    nextTimeBlockId := db.nextTimeBlockId + 1 })) := by
  unfold createTimeBlock
  have h1 : ¬ ((db.users.filter (fun u => u.id == input.user_id)).isEmpty
      = true) := by
    obtain ⟨u, hu, hid⟩ := huser
    have hne : (db.users.filter (fun u => u.id == input.user_id)).isEmpty
        = false :=
      filter_isEmpty_eq_false ⟨u, hu, by simp [hid]⟩
    simp [hne]
  have h2 : ¬ ((optIdTruthy input.task_id &&
      (db.tasks.filter (fun t =>
        some t.id == input.task_id && t.user_id == input.user_id)).isEmpty)
      = true) := by
    rw [Bool.and_eq_true]
    rintro ⟨htr, hempty⟩
    obtain ⟨t, ht, hid, huid⟩ := htask htr
    have hne : (db.tasks.filter (fun t =>
        some t.id == input.task_id && t.user_id == input.user_id)).isEmpty
        = false :=
      filter_isEmpty_eq_false ⟨t, ht, by simp [hid, huid]⟩
    simp [hne] at hempty
  have h3 : ¬ ((optIdTruthy input.event_id &&
      (db.events.filter (fun e =>
        some e.id == input.event_id && e.user_id == input.user_id)).isEmpty)
      = true) := by
    rw [Bool.and_eq_true]
    rintro ⟨htr, hempty⟩
    obtain ⟨e, he, hid, huid⟩ := hevent htr
    have hne : (db.events.filter (fun e =>
        some e.id == input.event_id && e.user_id == input.user_id)).isEmpty
        = false :=
      filter_isEmpty_eq_false ⟨e, he, by simp [hid, huid]⟩
    simp [hne] at hempty
  have h4 : ¬ (input.end_time ≤ input.start_time) := by omega
  rw [if_neg h1, if_neg h2, if_neg h3, if_neg h4]

/-- C1: with the reference checks passing and a positive range,
`createTimeBlock` rejects with the conflict validation error iff some
existing block of the same user satisfies the half-open overlap test
`existing.start < new.end AND existing.end > new.start`; when every
same-user block is merely adjacent or disjoint (one's end at or before the
other's start), creation succeeds. -/
theorem createTimeBlock_conflict_iff_overlap (db : DB)
    (input : CreateTimeBlockInput) (now : Nat)
    (huser : ∃ u ∈ db.users, u.id = input.user_id)
    (htask : optIdTruthy input.task_id = true →
      ∃ t ∈ db.tasks, some t.id = input.task_id ∧ t.user_id = input.user_id)
    (hevent : optIdTruthy input.event_id = true →
      ∃ e ∈ db.events, some e.id = input.event_id ∧ e.user_id = input.user_id)
    (hrange : input.start_time < input.end_time) :
    (createTimeBlock db input now = .error .conflict ↔
      ∃ b ∈ db.timeBlocks, b.user_id = input.user_id ∧
        b.start_time < input.end_time ∧ input.start_time < b.end_time) ∧
    ((∀ b ∈ db.timeBlocks, b.user_id = input.user_id →
        input.end_time ≤ b.start_time ∨ b.end_time ≤ input.start_time) →
      ∃ tb db2, createTimeBlock db input now = .ok (tb, db2)) := by
  have hred := createTimeBlock_checks_pass db input now huser htask hevent
    hrange
  constructor
  · constructor
    · intro herr
      rw [hred] at herr
      by_cases hc : (!(db.timeBlocks.filter (fun b =>
          b.user_id == input.user_id &&
          decide (b.start_time < input.end_time) &&
          decide (b.end_time > input.start_time))).isEmpty) = true
      · have hne : db.timeBlocks.filter (fun b =>
            b.user_id == input.user_id &&
            decide (b.start_time < input.end_time) &&
            decide (b.end_time > input.start_time)) ≠ [] := by
          simpa [List.isEmpty_eq_false] using hc
        obtain ⟨b, hb⟩ := List.exists_mem_of_ne_nil _ hne
        have hmem := List.mem_filter.mp hb
        refine ⟨b, hmem.1, ?_⟩
        have hpred := hmem.2
        simp only [Bool.and_eq_true, beq_iff_eq, decide_eq_true_eq] at hpred
        exact ⟨hpred.1.1, hpred.1.2, hpred.2⟩
      · rw [if_neg hc] at herr
        exact Except.noConfusion herr
    · rintro ⟨b, hb, hu, hov1, hov2⟩
      rw [hred]
      rw [if_pos]
      have hne : (db.timeBlocks.filter (fun b =>
          b.user_id == input.user_id &&
          decide (b.start_time < input.end_time) &&
          decide (b.end_time > input.start_time))).isEmpty = false :=
        filter_isEmpty_eq_false ⟨b, hb, by simp [hu, hov1, hov2]⟩
      simp [hne]
  · intro hnool
    rw [hred]
    have hfil : db.timeBlocks.filter (fun b =>
        b.user_id == input.user_id &&
        decide (b.start_time < input.end_time) &&
        decide (b.end_time > input.start_time)) = [] := by
      rw [List.filter_eq_nil_iff]
      intro b hb
      simp only [Bool.and_eq_true, beq_iff_eq, decide_eq_true_eq, not_and]
      intro hab
      obtain ⟨hu, h1⟩ := hab
      rcases hnool b hb hu with h | h
      · omega
      · omega
    rw [if_neg (by simp [hfil])]
    exact ⟨_, _, rfl⟩

/-- Fixture for C1: an existing block [600, 720) owned by user 2. -/
def blockW1 : TimeBlock :=
  { id := 1, user_id := 2, task_id := none, event_id := none, title := "A",
    start_time := 600, end_time := 720, color := none, created_at := 0 }

/-- The store for the C1 witness. -/
def dbW1 : DB :=
  { users := [{ id := 2 }], tasks := [], events := []
    timeBlocks := [blockW1], sessions := [], stats := []
    nextTimeBlockId := 2, nextStatsId := 1 }

/-- C1 witness input: the adjacent block [720, 840) for the same user. -/
def inW1 : CreateTimeBlockInput :=
  { user_id := 2, task_id := none, event_id := none, title := "B",
    start_time := 720, end_time := 840, color := none }

theorem createTimeBlock_conflict_iff_overlap_witness :
    (createTimeBlock dbW1 inW1 900 = .error .conflict ↔
      ∃ b ∈ dbW1.timeBlocks, b.user_id = inW1.user_id ∧
        b.start_time < inW1.end_time ∧ inW1.start_time < b.end_time) ∧
    ((∀ b ∈ dbW1.timeBlocks, b.user_id = inW1.user_id →
        inW1.end_time ≤ b.start_time ∨ b.end_time ≤ inW1.start_time) →
      ∃ tb db2, createTimeBlock dbW1 inW1 900 = .ok (tb, db2)) :=
  createTimeBlock_conflict_iff_overlap dbW1 inW1 900
    (by decide) (by decide) (by decide) (by decide)

/-- C7: the outcome of `createTimeBlock` for a user is unaffected by other
users' blocks — replacing the block table by any table that agrees on the
requesting user's blocks leaves the caller-visible outcome unchanged. -/
theorem createTimeBlock_ignores_other_users_blocks (db : DB)
    (blocks2 : List TimeBlock) (input : CreateTimeBlockInput) (now : Nat)
    (hagree : db.timeBlocks.filter (fun b => b.user_id == input.user_id) =
      blocks2.filter (fun b => b.user_id == input.user_id)) :
    timeBlockOutcome (createTimeBlock db input now) =
      timeBlockOutcome
        (createTimeBlock { db with timeBlocks := blocks2 } input now) := by
  have hsplit : ∀ l : List TimeBlock,
      l.filter (fun b =>
        b.user_id == input.user_id &&
        decide (b.start_time < input.end_time) &&
        decide (b.end_time > input.start_time)) =
      (l.filter (fun b => b.user_id == input.user_id)).filter (fun b =>
        decide (b.start_time < input.end_time) &&
        decide (b.end_time > input.start_time)) := by
    intro l
    rw [List.filter_filter]
    congr 1
    funext b
    cases b.user_id == input.user_id <;>
      cases decide (b.start_time < input.end_time) <;>
      cases decide (b.end_time > input.start_time) <;> rfl
  have hconf : db.timeBlocks.filter (fun b =>
      b.user_id == input.user_id &&
      decide (b.start_time < input.end_time) &&
      decide (b.end_time > input.start_time)) =
      blocks2.filter (fun b =>
      b.user_id == input.user_id &&
      decide (b.start_time < input.end_time) &&
      decide (b.end_time > input.start_time)) := by
    rw [hsplit, hsplit, hagree]
  unfold createTimeBlock timeBlockOutcome
  dsimp only
  rw [hconf]
  simp only [apply_ite (Except.map (Prod.fst (α := TimeBlock) (β := DB)))]
  rfl

/-- Fixture for C7: user 2's block [100, 200). -/
def blockW7a : TimeBlock :=
  { id := 1, user_id := 2, task_id := none, event_id := none, title := "u2",
    start_time := 100, end_time := 200, color := none, created_at := 0 }

/-- Fixture for C7: user 3's block with identical timestamps. -/
def blockW7b : TimeBlock :=
  { id := 2, user_id := 3, task_id := none, event_id := none, title := "u3",
    start_time := 100, end_time := 200, color := none, created_at := 0 }

/-- The store for the C7 witness: both users' blocks present. -/
def dbW7 : DB :=
  { users := [{ id := 2 }, { id := 3 }], tasks := [], events := []
    timeBlocks := [blockW7a, blockW7b], sessions := [], stats := []
    nextTimeBlockId := 3, nextStatsId := 1 }

/-- C7 witness input: user 2 requests [100, 200) again. -/
def inW7 : CreateTimeBlockInput :=
  { user_id := 2, task_id := none, event_id := none, title := "again",
    start_time := 100, end_time := 200, color := none }

theorem createTimeBlock_ignores_other_users_blocks_witness :
    timeBlockOutcome (createTimeBlock dbW7 inW7 50) =
      timeBlockOutcome
        (createTimeBlock { dbW7 with timeBlocks := [blockW7a] } inW7 50) :=
  createTimeBlock_ignores_other_users_blocks dbW7 [blockW7a] inW7 50 rfl

end Tym
